import Mathlib

/-!
Verification of the session and resource-lifecycle manager of a simulation
control server (`src/server.py`).

The Python source is shallowly embedded: the `CarlaConnection` object becomes a
Lean structure, method calls become pure state-passing functions, and every
interaction with the external simulation engine (client construction, world and
map fetches, batch submissions) is driven by an explicit environment value that
determines whether that interaction succeeds, fails per-command, or raises.
Raised Python exceptions are modelled with `Except`.  Attributes that the
Python `__init__` does not set (`sensors`, `actors` are only assigned inside
`connect`) are modelled as `Option` values, `none` meaning "attribute not yet
defined" so that reading them raises `attributeError`, as Python would.
-/

/-- A Python exception, as coarse-grained as the claims need. -/
inductive PyErr
  | connectionError
  | attributeError
deriving Repr, DecidableEq

/-- Outcome of one `client.apply_batch_sync(...)` call, chosen by the
environment: either the call raises a Python exception, or it returns a list of
per-command outcomes (`true` = that destroy command succeeded).  The engine
attempts every command of a returned batch; per-command failures never raise. -/
inductive BatchOutcome
  | raises
  | returns (results : List Bool)

/-- The `CarlaConnection` object of `server.py`.  `client` and `world` are
opaque handles (identified by a `Nat` nonce), the `map` object is identified by
its name, the blueprint library by its list of blueprint ids, and actor handles
by their `Nat` ids.  `sensors` and `actors` are `Option` because `__init__`
does not define them; only `connect` (and assignments in `disconnect_all`) do. -/
structure CarlaConnection where
  host : String
  port : Nat
  client : Option Nat
  world : Option Nat
  map : Option String
  blueprints : Option (List String)
  vehicles : List Nat
  sensors : Option (List Nat)
  actors : Option (List Nat)
deriving Repr, DecidableEq

/-- `CarlaConnection.__init__`: stores host and port, sets `client`, `world`,
`map`, `blueprints` to `None` and `vehicles` to `[]`; `sensors` and `actors`
are left undefined. -/
def CarlaConnection.init (host : String) (port : Nat) : CarlaConnection :=
  { host := host, port := port, client := none, world := none, map := none,
    blueprints := none, vehicles := [], sensors := none, actors := none }

/-- Environment for one `connect()` call: whether each interaction with the
engine succeeds, and the values the engine hands back when it does. -/
structure ConnectEnv where
  clientOk : Bool
  client : Nat
  timeoutOk : Bool
  worldOk : Bool
  world : Nat
  mapOk : Bool
  mapName : String
  bpsOk : Bool
  bps : List String
deriving Repr, DecidableEq

/-- `CarlaConnection.connect`.  Faithful to the statement order of the source:
`self.client = carla.Client(host, port)` and `set_timeout` sit inside the
`try` (whose handler re-raises), and `get_world` / `get_map` /
`get_blueprint_library` and the registry resets run after it, unguarded.  A
failure of `carla.Client(...)` leaves the state untouched; any later failure
has already stored the freshly constructed client (and whatever world
descriptor pieces were fetched before the failing step). -/
def connect (env : ConnectEnv) (s : CarlaConnection) :
    Except PyErr Unit × CarlaConnection :=
  if env.clientOk = false then (.error .connectionError, s)
  else
    let s1 := { s with client := some env.client }
    if env.timeoutOk = false then (.error .connectionError, s1)
    else if env.worldOk = false then (.error .connectionError, s1)
    else
      let s2 := { s1 with world := some env.world }
      if env.mapOk = false then (.error .connectionError, s2)
      else
        let s3 := { s2 with map := some env.mapName }
        if env.bpsOk = false then (.error .connectionError, s3)
        else (.ok (), { s3 with blueprints := some env.bps,
                                vehicles := [], sensors := some [],
                                actors := some [] })

/-- The state `connect` leaves on success: freshly connected, world descriptor
loaded, all three registry sequences empty. -/
def connectedState (env : ConnectEnv) (s : CarlaConnection) : CarlaConnection :=
  { host := s.host, port := s.port, client := some env.client,
    world := some env.world, map := some env.mapName,
    blueprints := some env.bps, vehicles := [], sensors := some [],
    actors := some [] }

/-- `CarlaConnection.disconnect`.  Inside `if self.client:` it submits one
destroy batch per category (vehicles, sensors, actors, in that order) and then
sets `self.client = None`; the `except` handler re-raises, so a raising batch
call (or an `AttributeError` from a never-assigned `sensors`/`actors`) aborts
everything after it.  Nothing else is cleared.  With no client it only warns.
The third component of the result is the trace of batches actually submitted
(each batch is the list of actor ids in its destroy commands). -/
def disconnect (env : Nat → BatchOutcome) (s : CarlaConnection) :
    Except PyErr Unit × CarlaConnection × List (List Nat) :=
  match s.client with
  | none => (.ok (), s, [])
  | some _ =>
    match env 0 with
    | .raises => (.error .connectionError, s, [s.vehicles])
    | .returns _ =>
      match s.sensors with
      | none => (.error .attributeError, s, [s.vehicles])
      | some sens =>
        match env 1 with
        | .raises => (.error .connectionError, s, [s.vehicles, sens])
        | .returns _ =>
          match s.actors with
          | none => (.error .attributeError, s, [s.vehicles, sens])
          | some acts =>
            match env 2 with
            | .raises => (.error .connectionError, s, [s.vehicles, sens, acts])
            | .returns _ =>
              (.ok (), { s with client := none }, [s.vehicles, sens, acts])

/-- The state every completed `disconnect_all` run ends in: all three registry
sequences cleared and `client`, `world`, `map`, `blueprints` reset to `None`. -/
def clearedState (s : CarlaConnection) : CarlaConnection :=
  { s with vehicles := [], sensors := some [], actors := some [],
           client := none, world := none, map := none, blueprints := none }

/-- `CarlaConnection.disconnect_all`.  Same guarded batch submission as
`disconnect` (the `except` handler re-raises, skipping everything after the
`try`), but when no exception escapes the `try` block the code then clears all
three registry sequences and sets `client`, `world`, `map`, `blueprints` to
`None` — whether or not a client existed. -/
def disconnect_all (env : Nat → BatchOutcome) (s : CarlaConnection) :
    Except PyErr Unit × CarlaConnection × List (List Nat) :=
  match s.client with
  | none => (.ok (), clearedState s, [])
  | some _ =>
    match env 0 with
    | .raises => (.error .connectionError, s, [s.vehicles])
    | .returns _ =>
      match s.sensors with
      | none => (.error .attributeError, s, [s.vehicles])
      | some sens =>
        match env 1 with
        | .raises => (.error .connectionError, s, [s.vehicles, sens])
        | .returns _ =>
          match s.actors with
          | none => (.error .attributeError, s, [s.vehicles, sens])
          | some acts =>
            match env 2 with
            | .raises => (.error .connectionError, s, [s.vehicles, sens, acts])
            | .returns _ =>
              (.ok (), clearedState s, [s.vehicles, sens, acts])

/-- `CarlaConnection.get_map_name`: `return self.map.name` when a map object is
cached, `return None` (after a warning) otherwise.  It never raises. -/
def get_map_name (s : CarlaConnection) : Option String :=
  match s.map with
  | some m => some m
  | none => none

/-- `CarlaConnection.get_blueprints`: ids of the cached library filtered by the
`"vehicle.*"` pattern when a library is cached, `[]` (after a warning)
otherwise.  It never raises. -/
def get_blueprints (s : CarlaConnection) : List String :=
  match s.blueprints with
  | some lib => lib.filter (fun bp => bp.startsWith "vehicle.")
  | none => []

/-- `CarlaConnection.get_vehicles`: the ids of the tracked vehicles, or `[]`
when the list is empty (Python truthiness of a list). -/
def get_vehicles (s : CarlaConnection) : List Nat :=
  if s.vehicles.isEmpty then [] else s.vehicles

/-- `CarlaConnection.get_sensors`: raises `AttributeError` if `sensors` was
never assigned; otherwise the tracked sensor ids, `[]` when empty. -/
def get_sensors (s : CarlaConnection) : Except PyErr (List Nat) :=
  match s.sensors with
  | none => .error .attributeError
  | some l => .ok (if l.isEmpty then [] else l)

/-- `CarlaConnection.get_actors`: raises `AttributeError` if `actors` was never
assigned; otherwise the tracked generic-actor ids, `[]` when empty. -/
def get_actors (s : CarlaConnection) : Except PyErr (List Nat) :=
  match s.actors with
  | none => .error .attributeError
  | some l => .ok (if l.isEmpty then [] else l)

/-- `get_carla_connection`.  The module-level global `_carla_connection` is the
`Option CarlaConnection` argument.  On the first call a fresh object is
assigned to the global **before** `connect()` runs, so the global keeps the
object even when that connect raises; on later calls `connect()` runs on the
existing object (reconnect-always), which mutates it in place, so the global
again holds the post-`connect` object whether or not the call raised. -/
def get_carla_connection (env : ConnectEnv) (g : Option CarlaConnection) :
    Except PyErr CarlaConnection × Option CarlaConnection :=
  let s := g.getD (CarlaConnection.init "localhost" 2000)
  let r := connect env s
  match r.1 with
  | .error e => (.error e, some r.2)
  | .ok _ => (.ok r.2, some r.2)

/-- One externally invokable operation that touches the module-level global:
the connection accessor itself, or one of the tools (each tool first calls
`get_carla_connection`, then a method on the returned object). -/
inductive MOp
  | acquire (env : ConnectEnv)
  | destroyAllTool (cenv : ConnectEnv) (benv : Nat → BatchOutcome)
  | mapNameTool (cenv : ConnectEnv)
  | blueprintsTool (cenv : ConnectEnv)

/-- Effect of one operation on the module-level global `_carla_connection`.
The tools mutate the single shared object, so the global tracks the mutated
object in every case. -/
def mstep (op : MOp) (g : Option CarlaConnection) : Option CarlaConnection :=
  match op with
  | .acquire env => (get_carla_connection env g).2
  | .destroyAllTool cenv benv =>
    match get_carla_connection cenv g with
    | (.error _, g1) => g1
    | (.ok c, _) => some (disconnect_all benv c).2.1
  | .mapNameTool cenv => (get_carla_connection cenv g).2
  | .blueprintsTool cenv => (get_carla_connection cenv g).2

/-- A sequence of operations run against the module-level global. -/
def runOps (ops : List MOp) (g : Option CarlaConnection) :
    Option CarlaConnection :=
  ops.foldl (fun g1 op => mstep op g1) g

/-- The `finally` block of `server_lifespan`: `if _carla_connection:` (an
object is always truthy) invokes `disconnect()` on it; with the global still
`None` nothing runs. -/
def server_shutdown (benv : Nat → BatchOutcome)
    (g : Option CarlaConnection) :
    Option (Except PyErr Unit × CarlaConnection × List (List Nat)) :=
  match g with
  | none => none
  | some s => some (disconnect benv s)

/-! ## Sample states and environments for concrete runs -/

/-- A fully connected session tracking one vehicle, one sensor and one
generic actor. -/
def sampleConnected : CarlaConnection :=
  { host := "localhost", port := 2000, client := some 7, world := some 3,
    map := some "Town01",
    blueprints := some ["vehicle.audi.a2", "walker.pedestrian.0001"],
    vehicles := [1], sensors := some [2], actors := some [3] }

/-- Engine environment in which every batch call returns, every command
succeeding. -/
def envOk : Nat → BatchOutcome := fun _ => BatchOutcome.returns [true]

/-- Engine environment in which every batch call raises. -/
def envRaises : Nat → BatchOutcome := fun _ => BatchOutcome.raises

/-- Engine environment in which every batch call returns but its first
command fails. -/
def envCmdFail : Nat → BatchOutcome := fun _ => BatchOutcome.returns [false, true]

/-- Connect environment in which every engine interaction succeeds. -/
def envConnectAll : ConnectEnv :=
  { clientOk := true, client := 9, timeoutOk := true, worldOk := true,
    world := 4, mapOk := true, mapName := "Town02", bpsOk := true,
    bps := ["vehicle.bmw.grandtourer"] }

/-- Connect environment in which `carla.Client` construction succeeds but
`get_world()` raises. -/
def envWorldFail : ConnectEnv :=
  { clientOk := true, client := 9, timeoutOk := true, worldOk := false,
    world := 4, mapOk := true, mapName := "Town02", bpsOk := true,
    bps := ["vehicle.bmw.grandtourer"] }

/-! ## Helper lemmas -/

/-- Closed-form case characterization of `connect`. -/
lemma connect_spec (env : ConnectEnv) (s : CarlaConnection) :
    connect env s =
      if env.clientOk = false then (.error .connectionError, s)
      else if env.timeoutOk = false then
        (.error .connectionError, { s with client := some env.client })
      else if env.worldOk = false then
        (.error .connectionError, { s with client := some env.client })
      else if env.mapOk = false then
        (.error .connectionError,
         { s with client := some env.client, world := some env.world })
      else if env.bpsOk = false then
        (.error .connectionError,
         { s with client := some env.client, world := some env.world,
                  map := some env.mapName })
      else (.ok (), connectedState env s) := by
  rcases env with ⟨co, c, tm, wo, w, mo, m, bo, b⟩
  cases co <;> cases tm <;> cases wo <;> cases mo <;> cases bo <;> rfl

/-- A successful `connect` ends in `connectedState`. -/
lemma connect_ok_state (env : ConnectEnv) (s : CarlaConnection)
    (h : (connect env s).1 = Except.ok ()) :
    (connect env s).2 = connectedState env s := by
  rw [connect_spec] at h ⊢
  rcases env with ⟨co, c, tm, wo, w, mo, m, bo, b⟩
  cases co <;> cases tm <;> cases wo <;> cases mo <;> cases bo <;>
    simp_all

/-- A completed `disconnect_all` run always ends in `clearedState`. -/
lemma disconnect_all_ok_state (env : Nat → BatchOutcome)
    (s : CarlaConnection) (h : (disconnect_all env s).1 = Except.ok ()) :
    (disconnect_all env s).2.1 = clearedState s := by
  obtain ⟨ho, po, cl, wd, mp, bp, vs, sn, ac⟩ := s
  unfold disconnect_all at h ⊢
  cases cl with
  | none => rfl
  | some c =>
    cases h0 : env 0 with
    | raises => simp [h0] at h
    | returns r0 =>
      cases sn with
      | none => simp [h0] at h
      | some sens =>
        cases h1 : env 1 with
        | raises => simp [h0, h1] at h
        | returns r1 =>
          cases ac with
          | none => simp [h0, h1] at h
          | some acts =>
            cases h2 : env 2 with
            | raises => simp [h0, h1, h2] at h
            | returns r2 => simp [h0, h1, h2]

/-- A completed `disconnect` run only resets `client`; every other field of
the state (the registry sequences included) is untouched. -/
lemma disconnect_ok_state (env : Nat → BatchOutcome)
    (s : CarlaConnection) (h : (disconnect env s).1 = Except.ok ()) :
    (disconnect env s).2.1 = { s with client := none } := by
  obtain ⟨ho, po, cl, wd, mp, bp, vs, sn, ac⟩ := s
  unfold disconnect at h ⊢
  cases cl with
  | none => rfl
  | some c =>
    cases h0 : env 0 with
    | raises => simp [h0] at h
    | returns r0 =>
      cases sn with
      | none => simp [h0] at h
      | some sens =>
        cases h1 : env 1 with
        | raises => simp [h0, h1] at h
        | returns r1 =>
          cases ac with
          | none => simp [h0, h1] at h
          | some acts =>
            cases h2 : env 2 with
            | raises => simp [h0, h1, h2] at h
            | returns r2 => simp [h0, h1, h2]

/-- `clearedState` is idempotent. -/
lemma clearedState_idem (s : CarlaConnection) :
    clearedState (clearedState s) = clearedState s := rfl

/-- The module-level global is `some` after every `get_carla_connection`
call, whether or not the connect raised. -/
lemma get_carla_connection_global_some (env : ConnectEnv)
    (g : Option CarlaConnection) :
    ((get_carla_connection env g).2).isSome = true := by
  unfold get_carla_connection
  cases h : (connect env (g.getD (CarlaConnection.init "localhost" 2000))).1 <;>
    simp [h]

/-- Every module-level operation leaves the global `some`. -/
lemma mstep_some (op : MOp) (g : Option CarlaConnection) :
    ((mstep op g).isSome) = true := by
  cases op with
  | acquire env => exact get_carla_connection_global_some env g
  | destroyAllTool cenv benv =>
    have hs := get_carla_connection_global_some cenv g
    unfold mstep
    dsimp only
    rcases h : get_carla_connection cenv g with ⟨r, g1⟩
    rw [h] at hs
    cases r with
    | error e => simpa using hs
    | ok c => simp
  | mapNameTool cenv => exact get_carla_connection_global_some cenv g
  | blueprintsTool cenv => exact get_carla_connection_global_some cenv g

/-- Running any operation sequence from a `some` global keeps it `some`. -/
lemma runOps_some (ops : List MOp) (g : Option CarlaConnection)
    (h : g.isSome = true) : ((runOps ops g).isSome) = true := by
  induction ops generalizing g with
  | nil => exact h
  | cons op ops ih =>
    unfold runOps
    simp only [List.foldl_cons]
    exact ih (mstep op g) (mstep_some op g)

/-- A successful `get_carla_connection` call returns the freshly connected
state and stores it in the global. -/
lemma get_carla_connection_ok (env : ConnectEnv) (g : Option CarlaConnection)
    (c : CarlaConnection) (g' : Option CarlaConnection)
    (h : get_carla_connection env g = (Except.ok c, g')) :
    c = connectedState env (g.getD (CarlaConnection.init "localhost" 2000)) ∧
    g' = some c := by
  unfold get_carla_connection at h
  dsimp only at h
  cases hr : (connect env (g.getD (CarlaConnection.init "localhost" 2000))).1 with
  | error e => rw [hr] at h; simp at h
  | ok u =>
    cases u
    rw [hr] at h
    simp only [Prod.mk.injEq, Except.ok.injEq] at h
    obtain ⟨hc, hg⟩ := h
    have hcs := connect_ok_state env (g.getD (CarlaConnection.init "localhost" 2000)) hr
    constructor
    · rw [← hc, hcs]
    · rw [← hg, ← hc]

/-! ## Claims -/

/-- C1, counterexample.  Invoked while Disconnected (the freshly initialised
object), `get_map_name` returns the null placeholder and `get_blueprints` the
empty list, and after a completed shutdown-path `disconnect` (client dropped)
`get_map_name` even returns the stale cached map name — so the claim that
these queries fail with `NotConnectedError` and never return placeholder
successes is false on the code. -/
theorem queries_disconnected_no_error_cx :
    get_map_name (CarlaConnection.init "localhost" 2000) = none ∧
    get_blueprints (CarlaConnection.init "localhost" 2000) = [] ∧
    (disconnect envOk sampleConnected).1 = Except.ok () ∧
    (disconnect envOk sampleConnected).2.1.client = none ∧
    get_map_name (disconnect envOk sampleConnected).2.1 = some "Town01" :=
  ⟨rfl, rfl, rfl, rfl, rfl⟩

/-- C1 (corrected): the query methods never raise: `get_map_name` returns the
cached map object's name whenever one is cached (even stale, from a closed
session) and the null placeholder `none` otherwise; `get_blueprints` returns
the cached catalog filtered by the `"vehicle.*"` pattern whenever one is
cached and the empty-list placeholder otherwise. -/
theorem queries_return_cached_or_placeholder (s : CarlaConnection) :
    (s.map = none → get_map_name s = none) ∧
    (∀ m, s.map = some m → get_map_name s = some m) ∧
    (s.blueprints = none → get_blueprints s = []) ∧
    (∀ l, s.blueprints = some l →
      get_blueprints s = l.filter (fun bp => bp.startsWith "vehicle.")) := by
  refine ⟨?_, ?_, ?_, ?_⟩ <;> intros <;> simp_all [get_map_name, get_blueprints]

/-- C1, witness: the corrected theorem evaluated on a concrete disconnected
state. -/
theorem queries_return_placeholder_witness :
    get_map_name (CarlaConnection.init "h" 1) = none ∧
    get_blueprints (CarlaConnection.init "h" 1) = [] :=
  ⟨(queries_return_cached_or_placeholder (CarlaConnection.init "h" 1)).1 rfl,
   (queries_return_cached_or_placeholder (CarlaConnection.init "h" 1)).2.2.1 rfl⟩

/-- C2, counterexample.  A completed run of the shutdown path's `disconnect`
on a session tracking one vehicle, one sensor and one generic actor leaves
SessionState Disconnected but all three registry sequences still populated —
so the claim that every completed full disconnect (including the
process-shutdown path) empties the registry is false on the code. -/
theorem full_disconnect_registry_not_cleared_cx :
    (disconnect envOk sampleConnected).1 = Except.ok () ∧
    (disconnect envOk sampleConnected).2.1.client = none ∧
    (disconnect envOk sampleConnected).2.1.vehicles = [1] ∧
    (disconnect envOk sampleConnected).2.1.sensors = some [2] ∧
    (disconnect envOk sampleConnected).2.1.actors = some [3] :=
  ⟨rfl, rfl, rfl, rfl, rfl⟩

/-- C2 (corrected): a completed `disconnect_all` ends in `clearedState` (all
three registry sequences empty, client/world/map/blueprints reset, so
SessionState is Disconnected); the process-shutdown path's `disconnect`,
however, only resets the client — the registry sequences and the cached world
descriptor survive it unchanged. -/
theorem full_disconnect_state (env : Nat → BatchOutcome)
    (s : CarlaConnection) :
    ((disconnect_all env s).1 = Except.ok () →
      (disconnect_all env s).2.1 = clearedState s) ∧
    ((disconnect env s).1 = Except.ok () →
      (disconnect env s).2.1 = { s with client := none }) :=
  ⟨disconnect_all_ok_state env s, disconnect_ok_state env s⟩

/-- C2, witness: both teardowns completed on a concrete connected session. -/
theorem full_disconnect_state_witness :
    (disconnect_all envOk sampleConnected).2.1 = clearedState sampleConnected ∧
    (disconnect envOk sampleConnected).2.1
      = { sampleConnected with client := none } :=
  ⟨(full_disconnect_state envOk sampleConnected).1 rfl,
   (full_disconnect_state envOk sampleConnected).2 rfl⟩

/-- C3, counterexample.  When the vehicles batch call raises, `disconnect_all`
submits no further batch: the trace holds only the vehicles batch, the sensors
and generic-actor batches are never submitted, the registry stays populated
and the exception propagates — so the claim that a failure of one category's
batch does not prevent the remaining batches from being submitted is false on
the code. -/
theorem teardown_batch_raise_aborts_cx :
    disconnect_all envRaises sampleConnected
      = (Except.error PyErr.connectionError, sampleConnected, [[1]]) := rfl

/-- C3 (corrected): per-command failures never short-circuit — whenever every
batch call returns (whatever its per-command outcomes `r0, r1, r2`, including
failing commands), both teardowns submit all three category batches in order
and complete; only a batch call that raises a Python exception aborts the
remaining batches. -/
theorem teardown_all_batches_when_calls_return (s : CarlaConnection)
    (c : Nat) (sens acts : List Nat) (r0 r1 r2 : List Bool)
    (env : Nat → BatchOutcome)
    (hc : s.client = some c) (hs : s.sensors = some sens)
    (ha : s.actors = some acts)
    (h0 : env 0 = BatchOutcome.returns r0)
    (h1 : env 1 = BatchOutcome.returns r1)
    (h2 : env 2 = BatchOutcome.returns r2) :
    disconnect_all env s
      = (Except.ok (), clearedState s, [s.vehicles, sens, acts]) ∧
    disconnect env s
      = (Except.ok (), { s with client := none }, [s.vehicles, sens, acts]) := by
  unfold disconnect_all disconnect
  rw [hc, hs, ha, h0, h1, h2]
  exact ⟨rfl, rfl⟩

/-- C3, witness: a run in which the first command of every batch fails still
submits all three batches and completes both teardowns. -/
theorem teardown_all_batches_witness :
    disconnect_all envCmdFail sampleConnected
      = (Except.ok (), clearedState sampleConnected, [[1], [2], [3]]) ∧
    disconnect envCmdFail sampleConnected
      = (Except.ok (), { sampleConnected with client := none },
         [[1], [2], [3]]) :=
  teardown_all_batches_when_calls_return sampleConnected 7 [2] [3]
    [false, true] [false, true] [false, true] envCmdFail
    rfl rfl rfl rfl rfl rfl

/-- C4 (confirmed): calling either teardown variant while SessionState is
Disconnected (no client) is a trivially succeeding no-op: no destroy batch is
submitted, no exception is raised, `disconnect` leaves the state exactly
unchanged, and `disconnect_all` only performs the same clearing it performs on
every completed run, ending in `clearedState`. -/
theorem teardown_disconnected_noop (s : CarlaConnection)
    (env env' : Nat → BatchOutcome) (h : s.client = none) :
    disconnect env s = (Except.ok (), s, []) ∧
    disconnect_all env' s = (Except.ok (), clearedState s, []) := by
  unfold disconnect disconnect_all
  rw [h]
  exact ⟨rfl, rfl⟩

/-- C4, witness: both teardowns on a concrete disconnected state, in an
environment where any batch call would raise — none is made. -/
theorem teardown_disconnected_noop_witness :
    disconnect envRaises (CarlaConnection.init "localhost" 2000)
      = (Except.ok (), CarlaConnection.init "localhost" 2000, []) ∧
    disconnect_all envRaises (CarlaConnection.init "localhost" 2000)
      = (Except.ok (), clearedState (CarlaConnection.init "localhost" 2000),
         []) :=
  teardown_disconnected_noop (CarlaConnection.init "localhost" 2000)
    envRaises envRaises rfl

/-- C5, counterexample.  A single `acquireSession` call from the Disconnected
initial state, failing when `get_world()` raises, leaves a partial state: the
freshly constructed client is stored while no world or map is loaded — the
exact intermediate state the claim rules out, and not the unchanged pre-call
state the claim requires on failure. -/
theorem acquire_failure_partial_state_cx :
    (connect envWorldFail (CarlaConnection.init "localhost" 2000)).1
      = Except.error PyErr.connectionError ∧
    (connect envWorldFail (CarlaConnection.init "localhost" 2000)).2.client
      = some 9 ∧
    (connect envWorldFail (CarlaConnection.init "localhost" 2000)).2.map
      = none ∧
    (connect envWorldFail (CarlaConnection.init "localhost" 2000)).2
      ≠ CarlaConnection.init "localhost" 2000 := by
  refine ⟨rfl, rfl, rfl, fun h => ?_⟩
  have hc := congrArg CarlaConnection.client h
  rw [show (connect envWorldFail (CarlaConnection.init "localhost" 2000)).2.client
        = some 9 from rfl] at hc
  simp [CarlaConnection.init] at hc

/-- C5 (corrected): full case characterization of one `acquireSession` call.
On success the state is fully Connected with a fresh world descriptor and
cleared registry; a failure while constructing the client leaves the state
exactly unchanged; any later failure leaves a partial state in which the
freshly constructed client — and whatever world-descriptor pieces were fetched
before the failing step — are stored while the remaining fields keep their
pre-call values.  The module-level global always holds this post-call state,
also when the call raised. -/
theorem acquire_state_characterization (env : ConnectEnv)
    (s : CarlaConnection) :
    connect env s =
      (if env.clientOk = false then (.error .connectionError, s)
       else if env.timeoutOk = false then
         (.error .connectionError, { s with client := some env.client })
       else if env.worldOk = false then
         (.error .connectionError, { s with client := some env.client })
       else if env.mapOk = false then
         (.error .connectionError,
          { s with client := some env.client, world := some env.world })
       else if env.bpsOk = false then
         (.error .connectionError,
          { s with client := some env.client, world := some env.world,
                   map := some env.mapName })
       else (.ok (), connectedState env s)) ∧
    (get_carla_connection env (some s)).2 = some (connect env s).2 := by
  refine ⟨connect_spec env s, ?_⟩
  unfold get_carla_connection
  cases h : (connect env ((some s).getD (CarlaConnection.init "localhost" 2000))).1 <;>
    simp_all

/-- C6, counterexample.  After a completed `disconnect_all` (the only
registry-clearing teardown in the code) the registry is indeed cleared, but
the client is dropped and the map cache reset, so an immediate `get_map_name`
returns `none` — the claim that the ConnectionHandle is retained, SessionState
stays Connected and `mapName()` still succeeds is false on the code. -/
theorem destroy_keep_session_cx :
    (disconnect_all envOk sampleConnected).1 = Except.ok () ∧
    (disconnect_all envOk sampleConnected).2.1.vehicles = [] ∧
    (disconnect_all envOk sampleConnected).2.1.client = none ∧
    get_map_name (disconnect_all envOk sampleConnected).2.1 = none :=
  ⟨rfl, rfl, rfl, rfl⟩

/-- C6 (corrected): a completed `disconnect_all` clears all three registry
sequences, but also discards the ConnectionHandle and the cached world
descriptor, transitioning SessionState to Disconnected; an immediate
`get_map_name` on the resulting state returns `none` rather than succeeding. -/
theorem destroy_all_clears_and_drops_session (env : Nat → BatchOutcome)
    (s : CarlaConnection) (h : (disconnect_all env s).1 = Except.ok ()) :
    (disconnect_all env s).2.1.vehicles = [] ∧
    (disconnect_all env s).2.1.sensors = some [] ∧
    (disconnect_all env s).2.1.actors = some [] ∧
    (disconnect_all env s).2.1.client = none ∧
    (disconnect_all env s).2.1.map = none ∧
    get_map_name (disconnect_all env s).2.1 = none := by
  rw [disconnect_all_ok_state env s h]
  exact ⟨rfl, rfl, rfl, rfl, rfl, rfl⟩

/-- C6, witness: the corrected theorem on a concrete completed run. -/
theorem destroy_all_drops_session_witness :
    (disconnect_all envOk sampleConnected).2.1.vehicles = [] ∧
    (disconnect_all envOk sampleConnected).2.1.sensors = some [] ∧
    (disconnect_all envOk sampleConnected).2.1.actors = some [] ∧
    (disconnect_all envOk sampleConnected).2.1.client = none ∧
    (disconnect_all envOk sampleConnected).2.1.map = none ∧
    get_map_name (disconnect_all envOk sampleConnected).2.1 = none :=
  destroy_all_clears_and_drops_session envOk sampleConnected rfl

/-- C7 (confirmed): `disconnect_all` is idempotent — after any completed run,
a second call (under any engine environment) submits no destroy batch,
succeeds, and leaves the state exactly as the first call left it. -/
theorem destroy_all_idempotent (s s1 : CarlaConnection)
    (t : List (List Nat)) (env env' : Nat → BatchOutcome)
    (h : disconnect_all env s = (Except.ok (), s1, t)) :
    disconnect_all env' s1 = (Except.ok (), s1, []) := by
  have h1 : (disconnect_all env s).1 = Except.ok () := by rw [h]
  have h2 : s1 = clearedState s := by
    have hx := disconnect_all_ok_state env s h1
    rw [h] at hx
    simpa using hx
  subst h2
  rfl

/-- C7, witness: two consecutive `disconnect_all` runs on a concrete session;
the second is a trivially succeeding no-op even though the engine environment
of the second call would make any batch call raise. -/
theorem destroy_all_idempotent_witness :
    disconnect_all envRaises (clearedState sampleConnected)
      = (Except.ok (), clearedState sampleConnected, []) :=
  destroy_all_idempotent sampleConnected (clearedState sampleConnected)
    [[1], [2], [3]] envOk envRaises rfl

/-- C8 (confirmed): after every successful `get_carla_connection` call — first
acquisition or re-acquisition over an existing session — the returned
connection has an empty registry: all three category accessors return the
empty sequence. -/
theorem acquire_success_registry_empty (env : ConnectEnv)
    (g g' : Option CarlaConnection) (c : CarlaConnection)
    (h : get_carla_connection env g = (Except.ok c, g')) :
    get_vehicles c = [] ∧ get_sensors c = Except.ok [] ∧
    get_actors c = Except.ok [] := by
  obtain ⟨hc, hg⟩ := get_carla_connection_ok env g c g' h
  subst hc
  exact ⟨rfl, rfl, rfl⟩

/-- C8, witness: a concrete first acquisition; the registry accessors of the
returned connection are all empty. -/
theorem acquire_success_registry_empty_witness :
    get_vehicles (connectedState envConnectAll
      (CarlaConnection.init "localhost" 2000)) = [] ∧
    get_sensors (connectedState envConnectAll
      (CarlaConnection.init "localhost" 2000)) = Except.ok [] ∧
    get_actors (connectedState envConnectAll
      (CarlaConnection.init "localhost" 2000)) = Except.ok [] :=
  acquire_success_registry_empty envConnectAll none
    (some (connectedState envConnectAll (CarlaConnection.init "localhost" 2000)))
    (connectedState envConnectAll (CarlaConnection.init "localhost" 2000)) rfl

/-- C9 (confirmed): `get_carla_connection` invoked while SessionState is
Connected performs a fresh handshake: on success the stored client is the one
this call's environment freshly constructed — whenever that fresh handle
differs from the old one, the old handle is no longer the stored one — and the
module-level global holds the reconnected object. -/
theorem acquire_reconnect_always (env : ConnectEnv) (s : CarlaConnection)
    (old : Nat) (c : CarlaConnection) (g' : Option CarlaConnection)
    (hold : s.client = some old)
    (h : get_carla_connection env (some s) = (Except.ok c, g')) :
    c.client = some env.client ∧
    (env.client ≠ old → c.client ≠ some old) ∧ g' = some c := by
  obtain ⟨hc, hg⟩ := get_carla_connection_ok env (some s) c g' h
  simp only [Option.getD_some] at hc
  subst hc
  refine ⟨rfl, fun hne hcontra => ?_, hg⟩
  simp only [connectedState, Option.some.injEq] at hcontra
  exact hne hcontra

/-- C9, witness: a re-acquisition over a live session whose old handle is 7;
the environment's fresh handle 9 is the one stored afterwards. -/
theorem acquire_reconnect_always_witness :
    (connectedState envConnectAll sampleConnected).client
      = some envConnectAll.client ∧
    (envConnectAll.client ≠ 7 →
      (connectedState envConnectAll sampleConnected).client ≠ some 7) ∧
    some (connectedState envConnectAll sampleConnected)
      = some (connectedState envConnectAll sampleConnected) :=
  acquire_reconnect_always envConnectAll sampleConnected 7
    (connectedState envConnectAll sampleConnected)
    (some (connectedState envConnectAll sampleConnected)) rfl rfl

/-- C10 (confirmed): once `get_carla_connection` has been invoked at least
once — also when that first connection attempt raised — the module-level
global is `some` after every subsequent sequence of operations, so the
shutdown path's `if _carla_connection:` guard passes and `disconnect` is
invoked on all shutdown paths. -/
theorem singleton_persists_and_shutdown_runs (env0 : ConnectEnv)
    (benv : Nat → BatchOutcome) (ops : List MOp) :
    ((runOps ops (get_carla_connection env0 none).2).isSome = true) ∧
    ((server_shutdown benv
        (runOps ops (get_carla_connection env0 none).2)).isSome = true) := by
  have h0 := get_carla_connection_global_some env0 none
  have h1 := runOps_some ops _ h0
  refine ⟨h1, ?_⟩
  unfold server_shutdown
  rcases hg : runOps ops (get_carla_connection env0 none).2 with _ | s
  · rw [hg] at h1; simp at h1
  · rfl
